import Mathlib

set_option autoImplicit false

/-
Verification development for the KalybrateX skill-evaluation pipeline.
Python sources are shallowly embedded: Python floats appearing in the scoring
formulas are modelled as exact rationals (ℚ), Python lists as `List`, Python
dicts as association functions, and Python exceptions as `Except` values.
-/

namespace KalybrateX

/-! ## Data model (src/evaluator/models.py) -/

/-- Verdict from A/B comparison judging (models.py, class Verdict). -/
inductive Verdict where
  | skillWins
  | baselineWins
  | tie
  deriving DecidableEq, Repr

/-- The fields of ComparisonResult (models.py) that the scorer reads:
`verdict` and the two token counts. -/
structure ComparisonResult where
  verdict : Verdict
  baseline_tokens : ℕ
  skill_tokens : ℕ
  deriving DecidableEq, Repr

/-- Security grade enumeration (models.py, class SecurityGrade). -/
inductive SecurityGrade where
  | secure
  | warning
  | fail
  deriving DecidableEq, Repr

/-- A security issue (models.py, class SecurityIssue): `severity` is a free
string, as in the source (no enum restricts it to low/medium/high). -/
structure SecurityIssue where
  category : String
  severity : String
  description : String
  evidence : String
  deriving DecidableEq, Repr

/-- The fields of SecurityResult (models.py) that the scorer reads. -/
structure SecurityResult where
  grade : SecurityGrade
  issues : List SecurityIssue
  deriving DecidableEq, Repr

/-! ## Python rounding

Python `round(x, 2)` rounds to the nearest multiple of 1/100 with ties going
to the even last digit (banker's rounding).  The binary-float representation
is abstracted to the exact rational value. -/

/-- Round a rational to the nearest integer, ties to even. -/
def roundHalfEven (q : ℚ) : ℤ :=
  let f : ℤ := ⌊q⌋
  let r : ℚ := q - f
  if r < 1/2 then f
  else if 1/2 < r then f + 1
  else if Even f then f else f + 1

/-- Python `round(q, 2)` on the exact rational value. -/
def pyRound2 (q : ℚ) : ℚ := (roundHalfEven (q * 100) : ℚ) / 100

/-! ## Scorer (src/evaluator/scorer.py) -/

/-- Pricing constant HAIKU_OUTPUT_PRICE = 1.25 / 1_000_000 (scorer.py). -/
def HAIKU_OUTPUT_PRICE : ℚ := 1.25 / 1000000

/-- Scorer.calculate_win_rate (scorer.py lines 66-112).  Counts wins
(SKILL_WINS), losses (BASELINE_WINS) and ties in a single pass, then returns
`none` as the win rate when there is no decisive comparison and otherwise
`round((wins / decisive) * 100, 2)`.  The empty list raises ScorerError,
modelled as `Except.error`. -/
def calculate_win_rate (comparisons : List ComparisonResult) :
    Except String (ℕ × ℕ × ℕ × Option ℚ) :=
  if comparisons.isEmpty then
    .error "No comparisons provided - cannot calculate win rate"
  else
    let counts : ℕ × ℕ × ℕ := comparisons.foldl
      (fun acc c =>
        match c.verdict with
        | .skillWins => (acc.1 + 1, acc.2.1, acc.2.2)
        | .baselineWins => (acc.1, acc.2.1 + 1, acc.2.2)
        | .tie => (acc.1, acc.2.1, acc.2.2 + 1))
      (0, 0, 0)
    let wins := counts.1
    let losses := counts.2.1
    let ties := counts.2.2
    let decisive := wins + losses
    if decisive = 0 then
      .ok (wins, losses, ties, none)
    else
      .ok (wins, losses, ties, some (pyRound2 ((wins : ℚ) / (decisive : ℚ) * 100)))

/-- Scorer.calculate_grade (scorer.py lines 114-143): letter grade from an
optional win-rate percentage. -/
def calculate_grade (win_rate : Option ℚ) : String :=
  match win_rate with
  | none => "F"
  | some x =>
    if x ≥ 80 then "A"
    else if x ≥ 60 then "B"
    else if x ≥ 40 then "C"
    else if x ≥ 20 then "D"
    else "F"

/-- Scorer.calculate_cost (scorer.py lines 145-172): average skill tokens and
cost at Haiku output pricing; empty input raises ScorerError. -/
def calculate_cost (comparisons : List ComparisonResult) :
    Except String (ℚ × ℚ) :=
  if comparisons.isEmpty then
    .error "No comparisons provided - cannot calculate cost"
  else
    let total : ℕ := (comparisons.map (·.skill_tokens)).sum
    let avg : ℚ := (total : ℚ) / (comparisons.length : ℚ)
    .ok (avg, avg * HAIKU_OUTPUT_PRICE)

/-- SkillScore (models.py lines 122-163).  Every field below is declared in
the pydantic model with `Field(...)` and no default value, so pydantic treats
each one as required; that includes `avg_baseline_tokens` and
`baseline_cost_usd`.  The `scored_at` timestamp is omitted (external clock). -/
structure SkillScore where
  skill_name : String
  wins : ℕ
  losses : ℕ
  ties : ℕ
  win_rate : Option ℚ
  grade : String
  security_grade : SecurityGrade
  security_issues_count : ℕ
  avg_tokens_per_use : ℚ
  cost_per_use_usd : ℚ
  avg_baseline_tokens : ℚ
  baseline_cost_usd : ℚ
  total_comparisons : ℕ
  deriving Repr

/-- The keyword arguments handed to the pydantic SkillScore constructor;
`none` marks a field the caller did not pass. -/
structure SkillScoreKwargs where
  skill_name : Option String
  wins : Option ℕ
  losses : Option ℕ
  ties : Option ℕ
  win_rate : Option (Option ℚ)
  grade : Option String
  security_grade : Option SecurityGrade
  security_issues_count : Option ℕ
  avg_tokens_per_use : Option ℚ
  cost_per_use_usd : Option ℚ
  avg_baseline_tokens : Option ℚ
  baseline_cost_usd : Option ℚ
  total_comparisons : Option ℕ

/-- Pydantic validation of the SkillScore constructor call: every required
field must be supplied, otherwise a ValidationError is raised.  All thirteen
modelled fields are required (models.py declares them without defaults). -/
def validate_SkillScore (kw : SkillScoreKwargs) : Except String SkillScore :=
  match kw.skill_name, kw.wins, kw.losses, kw.ties, kw.win_rate, kw.grade,
      kw.security_grade, kw.security_issues_count, kw.avg_tokens_per_use,
      kw.cost_per_use_usd, kw.avg_baseline_tokens, kw.baseline_cost_usd,
      kw.total_comparisons with
  | some n, some w, some l, some t, some wr, some g, some sg, some sic,
      some atpu, some cpu, some abt, some bcu, some tc =>
    .ok ⟨n, w, l, t, wr, g, sg, sic, atpu, cpu, abt, bcu, tc⟩
  | _, _, _, _, _, _, _, _, _, _, _, _, _ =>
    .error "ValidationError: field required"

/-- Scorer.score (scorer.py lines 174-221).  Raises ScorerError on an empty
comparison list, otherwise computes win rate, grade and cost and constructs
SkillScore.  The constructor call at lines 208-221 passes every field except
`avg_baseline_tokens` and `baseline_cost_usd` (both `none` below), so the
pydantic validation step decides whether a SkillScore is produced. -/
def Scorer_score (skill_name : String) (comparisons : List ComparisonResult)
    (security_result : SecurityResult) : Except String SkillScore :=
  if comparisons.isEmpty then
    .error "No comparisons provided - cannot score skill"
  else do
    let (wins, losses, ties, win_rate) ← calculate_win_rate comparisons
    let grade := calculate_grade win_rate
    let (avg_tokens, cost_usd) ← calculate_cost comparisons
    validate_SkillScore
      { skill_name := some skill_name
        wins := some wins
        losses := some losses
        ties := some ties
        win_rate := some win_rate
        grade := some grade
        security_grade := some security_result.grade
        security_issues_count := some security_result.issues.length
        avg_tokens_per_use := some avg_tokens
        cost_per_use_usd := some cost_usd
        avg_baseline_tokens := none
        baseline_cost_usd := none
        total_comparisons := some comparisons.length }

/-! ## Security checker (src/evaluator/security_checker.py) -/

/-- determine_grade (security_checker.py lines 66-91): empty issue list is
secure; otherwise the set of severity strings decides the grade. -/
def determine_grade (issues : List SecurityIssue) : SecurityGrade :=
  if issues.isEmpty then .secure
  else
    let severities := issues.map (·.severity)
    if severities.contains "high" then .fail
    else if severities.contains "medium" then .warning
    else .secure

/-! ## Execution evaluator comparison (src/evaluator/execution_evaluator.py) -/

/-- Python property map values appearing in verification results. -/
inductive PropVal where
  | boolV (b : Bool)
  | intV (n : ℤ)
  | strV (s : String)
  | listV (l : List String)
  deriving DecidableEq, Repr

/-- One file's property dict inside a verification result. -/
abbrev Props := List (String × PropVal)

/-- VerificationResult (execution_verifier.py / models.py): the outcome of
running one response's code.  `output_properties` is a dict keyed by
filename; `verified_at` is omitted (external clock). -/
structure VerificationResult where
  skill_name : String
  prompt : String
  code_extracted : Bool
  code_language : String
  code_blocks_count : ℕ
  executed : Bool
  execution_success : Bool
  execution_error : Option String
  execution_time_ms : ℕ
  output_files_created : List String
  output_valid : Bool
  output_properties : String → Option Props

/-- ExecutionEvaluator.compare_verifications (execution_evaluator.py lines
129-178): the ordered tie-break cascade over the two verification results. -/
def compare_verifications (baseline skill : VerificationResult) :
    Verdict × String :=
  let b_valid := baseline.output_valid
  let s_valid := skill.output_valid
  let b_ran := baseline.execution_success
  let s_ran := skill.execution_success
  let b_code := baseline.code_extracted
  let s_code := skill.code_extracted
  if s_valid && !b_valid then
    (.skillWins, "Skill produced valid output, baseline did not")
  else if b_valid && !s_valid then
    (.baselineWins, "Baseline produced valid output, skill did not")
  else if b_valid && s_valid then
    (.tie, "Both produced valid output")
  else if s_ran && !b_ran then
    (.skillWins, "Skill code ran, baseline code failed")
  else if b_ran && !s_ran then
    (.baselineWins, "Baseline code ran, skill code failed")
  else if s_code && !b_code then
    (.skillWins, "Skill produced code, baseline did not")
  else if b_code && !s_code then
    (.baselineWins, "Baseline produced code, skill did not")
  else
    (.tie, "Both failed equally")

/-- The tie-break cascade exactly as the claim words it: evaluated
top-to-bottom, first match wins.  Written from the spec sentence for the
refinement comparison with `compare_verifications`. -/
def cascade_spec (b_valid s_valid b_ran s_ran b_code s_code : Bool) : Verdict :=
  if s_valid ≠ b_valid then (if s_valid then .skillWins else .baselineWins)
  else if s_valid && b_valid then .tie
  else if s_ran ≠ b_ran then (if s_ran then .skillWins else .baselineWins)
  else if s_code ≠ b_code then (if s_code then .skillWins else .baselineWins)
  else .tie

/-- Numeric rank of a letter grade, used to state that grade quality is
monotone in the win rate (A best, F worst). -/
def grade_rank (g : String) : ℕ :=
  if g = "A" then 4
  else if g = "B" then 3
  else if g = "C" then 2
  else if g = "D" then 1
  else 0

/-! ## Combined score

`Scorer.score_combined` is invoked by the orchestrator
(src/evaluator/main.py line 276) and its result type CombinedScore is
declared in src/evaluator/models.py, but no method named `score_combined`
appears anywhere under src/. -/

/-- CombinedScore (models.py lines 306-343), restricted to the fields the
claim is about. -/
structure CombinedScore where
  quality_win_rate : ℚ
  execution_win_rate : Option ℚ
  combined_score : ℚ
  final_grade : String
  security_grade : SecurityGrade

/-- Modelled from the spec: the body of `Scorer.score_combined` is missing
from src/ (only its caller in main.py and its output model CombinedScore
exist there).  Following spec section 4.7: the combined score is a weighted
blend of the quality win rate and the execution win rate; when no execution
score is present the combined score equals the quality win rate alone; the
security grade is carried through unchanged as a separate, non-blended
field.  The blend weights are parameters, per the spec's note that the
weighting should be treated as configurable. -/
def score_combined (quality_win_rate : ℚ) (execution_win_rate : Option ℚ)
    (security_grade : SecurityGrade) (w_quality w_execution : ℚ) :
    CombinedScore :=
  let combined : ℚ :=
    match execution_win_rate with
    | none => quality_win_rate
    | some e => w_quality * quality_win_rate + w_execution * e
  { quality_win_rate := quality_win_rate
    execution_win_rate := execution_win_rate
    combined_score := combined
    final_grade := calculate_grade (some combined)
    security_grade := security_grade }

/-! ## Code extractor (src/evaluator/code_extractor.py)

The regex scan `re.finditer(r"..." , response, re.DOTALL)` over fenced code
blocks is embedded as an explicit left-to-right scanner over the character
list: at each position the engine attempts a match of
three backticks, a greedy run of word characters (the tag), a newline, and a
minimal body up to the next three backticks; on success it resumes after the
closing fence, on failure it advances one character. -/

/-- The backtick character. -/
def backtick : Char := Char.ofNat 96

/-- Python regex word character (ASCII letters, digits, underscore). -/
def isWordChar (c : Char) : Bool := c.isAlphanum || c = '_'

/-- Python whitespace characters recognized by str.strip(). -/
def isPySpace (c : Char) : Bool :=
  c = ' ' || c = '\t' || c = '\n' || c = '\r' ||
  c = Char.ofNat 11 || c = Char.ofNat 12

/-- Python str.strip(): drop whitespace from both ends. -/
def pyStrip (s : String) : String :=
  String.mk (((s.toList.dropWhile isPySpace).reverse.dropWhile isPySpace).reverse)

/-- Python str.lower() on ASCII tags. -/
def pyLower (s : String) : String := String.mk (s.toList.map Char.toLower)

/-- Python str.upper() on ASCII verdict strings. -/
def pyUpper (s : String) : String := String.mk (s.toList.map Char.toUpper)

/-- LANGUAGE_ALIASES (code_extractor.py lines 33-58), in source order. -/
def LANGUAGE_ALIASES : List (String × String) :=
  [("python", "python"), ("py", "python"), ("python3", "python"),
   ("javascript", "javascript"), ("js", "javascript"),
   ("typescript", "typescript"), ("ts", "typescript"),
   ("bash", "bash"), ("sh", "bash"), ("shell", "bash"), ("zsh", "bash"),
   ("yaml", "yaml"), ("yml", "yaml"), ("json", "json"), ("html", "html"),
   ("css", "css"), ("sql", "sql"), ("rust", "rust"), ("go", "go"),
   ("golang", "go"), ("ruby", "ruby"), ("rb", "ruby"),
   ("elixir", "elixir"), ("ex", "elixir")]

/-- EXECUTABLE_LANGUAGES (code_extractor.py line 61). -/
def EXECUTABLE_LANGUAGES : List String :=
  ["python", "javascript", "typescript", "bash", "ruby", "elixir"]

/-- normalize_language (code_extractor.py lines 64-75): lowercase, strip,
then alias lookup with pass-through default. -/
def normalize_language (lang : String) : String :=
  let normalized := pyStrip (pyLower lang)
  ((LANGUAGE_ALIASES.find? (fun p => p.1 == normalized)).map (·.2)).getD normalized

/-- CodeBlock (code_extractor.py lines 14-20). -/
structure CodeBlock where
  language : String
  code : String
  start_line : ℕ
  end_line : ℕ
  deriving DecidableEq, Repr

/-- ExtractedCode (code_extractor.py lines 23-29). -/
structure ExtractedCode where
  blocks : List CodeBlock
  primary_language : String
  combined_code : String
  has_executable_code : Bool
  deriving DecidableEq, Repr

/-- Whether the list starts with three backticks. -/
def isFence : List Char → Bool
  | a :: b :: c :: _ => a = backtick && b = backtick && c = backtick
  | _ => false

/-- Minimal-match search for the closing fence: returns the characters
before the earliest occurrence of three backticks and the remainder after
that fence, or `none` when no closing fence exists. -/
def findClose : List Char → Option (List Char × List Char)
  | [] => none
  | c :: rest =>
    if isFence (c :: rest) then some ([], rest.drop 2)
    else
      match findClose rest with
      | none => none
      | some (code, after) => some (c :: code, after)

/-- After the greedy word-character tag: the pattern requires a newline and
then the minimal body up to a closing fence. -/
def afterTag (tag : List Char) : List Char → Option (String × List Char × List Char)
  | c :: body =>
    if c = '\n' then
      match findClose body with
      | some (code, after) => some (String.mk tag, code, after)
      | none => none
    else none
  | [] => none

/-- Attempt the fenced-block pattern at the current position: three
backticks, the greedy word-character tag, a mandatory newline, then the
minimal body up to a closing fence.  Returns the tag, the raw body
(Python match.group(2)) and the remainder after the closing fence. -/
def matchFence : List Char → Option (String × List Char × List Char)
  | c1 :: c2 :: c3 :: rest =>
    if c1 = backtick && c2 = backtick && c3 = backtick then
      afterTag (rest.takeWhile isWordChar) (rest.dropWhile isWordChar)
    else none
  | _ => none

/-- Fuel-indexed scanner.  The accumulator `nl` counts the newlines that
precede the current position (giving Python's start-line computation); a
successful match consumes the newline after the tag plus the newlines of
the raw body before scanning resumes.  The fuel only guards recursion; by
`scanFencesAux_fuel` any fuel above the list length gives the same result. -/
def scanFencesAux : ℕ → ℕ → List Char → List (ℕ × String × List Char)
  | 0, _, _ => []
  | _ + 1, _, [] => []
  | fuel + 1, nl, c :: rest =>
    match matchFence (c :: rest) with
    | some (tag, code, after) =>
      (nl, tag, code) :: scanFencesAux fuel (nl + 1 + code.count '\n') after
    | none => scanFencesAux fuel (if c = '\n' then nl + 1 else nl) rest

/-- The fence scan of a full character list. -/
def scanFences (cs : List Char) : List (ℕ × String × List Char) :=
  scanFencesAux (cs.length + 1) 0 cs

/-- extract_code_blocks (code_extractor.py lines 78-110): scan for fenced
regions; an empty tag becomes "text"; the stored code is stripped while the
line span is computed from the raw body. -/
def extract_code_blocks (response : String) : List CodeBlock :=
  (scanFences response.toList).map fun entry =>
    let nl := entry.1
    let tag := entry.2.1
    let rawCode := entry.2.2
    let lang := if tag = "" then "text" else tag
    { language := normalize_language lang
      code := pyStrip (String.mk rawCode)
      start_line := nl + 1
      end_line := nl + 1 + rawCode.count '\n' }

/-- Distinct elements in order of first occurrence: the key order of the
Python dict `lang_counts` built by insertion. -/
def firstOccurrences : List String → List String
  | [] => []
  | x :: xs => x :: (firstOccurrences xs).filter (fun y => y ≠ x)

/-- Python `max(iterable, key=f)`: the first element attaining the maximal
key, `none` on an empty list. -/
def pyMaxBy (key : String → ℕ) : List String → Option String
  | [] => none
  | x :: xs => some (xs.foldl (fun best y => if key y > key best then y else best) x)

/-- detect_primary_language (code_extractor.py lines 113-141): most
frequent executable language, falling back to the most frequent language
overall; "text" for an empty block list.  The final "text" arm is
unreachable because a non-empty block list yields a non-empty key list. -/
def detect_primary_language (blocks : List CodeBlock) : String :=
  if blocks.isEmpty then "text"
  else
    let langs := blocks.map (·.language)
    let distinct := firstOccurrences langs
    let countOf : String → ℕ := fun l => langs.count l
    let executable := distinct.filter (fun l => EXECUTABLE_LANGUAGES.contains l)
    match pyMaxBy countOf executable with
    | some best => best
    | none =>
      match pyMaxBy countOf distinct with
      | some best => best
      | none => "text"

/-- combine_code_blocks (code_extractor.py lines 144-163): join the blocks
of the target language, in order, with a blank line. -/
def combine_code_blocks (blocks : List CodeBlock) (target_language : String) :
    String :=
  let relevant := blocks.filter (fun b => b.language == target_language)
  if relevant.isEmpty then ""
  else String.intercalate "\n\n" (relevant.map (·.code))

/-- extract_code (code_extractor.py lines 166-189): compose extraction,
primary-language detection and combination; executable iff the primary
language is executable and the combined text is non-blank. -/
def extract_code (response : String) : ExtractedCode :=
  let blocks := extract_code_blocks response
  let primary_lang := detect_primary_language blocks
  let combined := combine_code_blocks blocks primary_lang
  { blocks := blocks
    primary_language := primary_lang
    combined_code := combined
    has_executable_code :=
      EXECUTABLE_LANGUAGES.contains primary_lang && !(pyStrip combined).isEmpty }

/-- A response whose only fenced block is tagged json (spec scenario). -/
def jsonOnlyResponse : String := "Here is the data:\n```json\n[1, 2]\n```\n"

/-! ## Quality evaluator judge parsing (src/evaluator/quality_evaluator.py)

The markdown-fence stripping and `json.loads` preamble of
parse_judge_response is modelled by its outcome: either a JSON decode error
or the decoded object, of which only the string fields `verdict` and
`reasoning` are read. -/

/-- The fields of the decoded judge JSON object that parse_judge_response
reads; `none` models an absent key. -/
structure JudgeJson where
  verdict : Option String
  reasoning : Option String
  deriving DecidableEq, Repr

/-- parse_judge_response (quality_evaluator.py lines 153-196) applied to
the outcome of `json.loads`: a decode failure raises JudgeParseError, a
missing `verdict` key raises JudgeParseError, otherwise the verdict is
uppercased and returned with the (defaulted) reasoning.  No validation of
the verdict value happens here. -/
def parse_judge_response (json_outcome : Except String JudgeJson) :
    Except String (String × String) :=
  match json_outcome with
  | .error e => .error ("JudgeParseError: Failed to parse JSON response: " ++ e)
  | .ok data =>
    match data.verdict with
    | none => .error "JudgeParseError: Response missing verdict field"
    | some v => .ok (pyUpper v, data.reasoning.getD "")

/-- The verdict mapping inside QualityEvaluator.judge_comparison
(quality_evaluator.py lines 313-321): "TIE" maps to tie, "A" to the side in
position A, and every other raw verdict falls to the final else branch,
which treats it as a win for position B. -/
def map_judge_verdict (raw_verdict : String) (position_a : String) : Verdict :=
  if raw_verdict = "TIE" then .tie
  else if raw_verdict = "A" then
    (if position_a = "skill" then .skillWins else .baselineWins)
  else
    (if position_a = "skill" then .baselineWins else .skillWins)

/-! ## Execution verifier (src/evaluator/execution_verifier.py)

Python exceptions are modelled explicitly: each per-format verifier is a
`try` body that may raise (an `Except PyExn` value) wrapped by the handler
clauses of the source.  File contents are abstracted to the outcome of the
parsing step performed inside the corresponding `try` body, so a raising
parser models any unexpected exception from file contents. -/

/-- Python exception classes distinguished by the verifier's handlers. -/
inductive PyExn where
  | importErr (msg : String)
  | jsonDecodeErr (msg : String)
  | syntaxErr (msg : String)
  | generic (msg : String)
  deriving DecidableEq, Repr

/-- Python str(e) for a modelled exception. -/
def exnMsg : PyExn → String
  | .importErr m => m
  | .jsonDecodeErr m => m
  | .syntaxErr m => m
  | .generic m => m

/-- A decoded JSON/YAML document as the verifier sees it: a dict with its
top-level keys, or any non-dict value with its Python type name. -/
inductive PyVal where
  | dict (keys : List String)
  | nondict (tyName : String)
  deriving DecidableEq, Repr

/-- Python type(content).__name__. -/
def pyTypeName : PyVal → String
  | .dict _ => "dict"
  | .nondict t => t

/-- What pypdf reading yields on success: page count and the concatenation
of per-page extracted text. -/
structure PdfInfo where
  pages : ℤ
  text : String
  deriving DecidableEq, Repr

/-- A file in the working directory, abstracted to the parsing outcome of
the verifier branch its extension selects (pdf / xlsx / json / yaml / py /
anything else).  An `Except.error` parse models the exception the branch's
`try` body raises for those contents. -/
inductive FileData where
  | pdf (parse : Except PyExn PdfInfo)
  | xlsx (parse : Except PyExn (List String))
  | jsonF (parse : Except PyExn PyVal)
  | yamlF (parse : Except PyExn PyVal)
  | pyF (parse : Except PyExn ℕ)
  | other (size_bytes : ℕ)
  deriving Repr

/-- The expected-property map for one file (the per-file dicts of
expected_properties): page count, required substrings, required sheet name,
required top-level keys. -/
structure Expected where
  pages : Option ℤ := none
  text_contains : Option (List String) := none
  sheet : Option String := none
  keys : Option (List String) := none

/-- Whether `needle` starts `hay`. -/
def startsWithChars : List Char → List Char → Bool
  | _, [] => true
  | [], _ :: _ => false
  | h :: hs, n :: ns => h = n && startsWithChars hs ns

/-- Python substring containment helper. -/
def hasSubAux : List Char → List Char → Bool
  | [], needle => needle.isEmpty
  | c :: rest, needle => startsWithChars (c :: rest) needle || hasSubAux rest needle

/-- Python `needle in hay` on strings. -/
def hasSubstring (hay needle : String) : Bool := hasSubAux hay.toList needle.toList

/-- Python try/except: run the body, mapping a raised exception through the
handler clauses. -/
def pyTry (body : Except PyExn (Bool × Props)) (handler : PyExn → Bool × Props) :
    Bool × Props :=
  match body with
  | .ok r => r
  | .error e => handler e

/-- The try body of verify_pdf_output (execution_verifier.py lines
288-313): read the PDF, check the expected page count, then the expected
substrings in order, recording the first missing one. -/
def verify_pdf_body (parse : Except PyExn PdfInfo) (expected : Expected) :
    Except PyExn (Bool × Props) :=
  match parse with
  | .error e => .error e
  | .ok info =>
    let props : Props := [("pages", .intV info.pages), ("valid_format", .boolV true)]
    if (match expected.pages with
        | some n => decide (info.pages ≠ n)
        | none => false) then .ok (false, props)
    else
      match expected.text_contains with
      | none => .ok (true, props)
      | some needles =>
        match needles.find? (fun t => !hasSubstring info.text t) with
        | some missing => .ok (false, props ++ [("missing_text", .strV missing)])
        | none => .ok (true, props)

/-- The handler clauses of verify_pdf_output (lines 315-318). -/
def pdf_handler : PyExn → Bool × Props
  | .importErr _ =>
    (false, [("error", .strV "pypdf not installed (expected - neutral environment)")])
  | e => (false, [("error", .strV (exnMsg e)), ("valid_format", .boolV false)])

/-- verify_pdf_output (execution_verifier.py lines 277-318). -/
def verify_pdf_output (parse : Except PyExn PdfInfo) (expected : Expected) :
    Bool × Props :=
  pyTry (verify_pdf_body parse expected) pdf_handler

/-- The try body of verify_xlsx_output (lines 332-345). -/
def verify_xlsx_body (parse : Except PyExn (List String)) (expected : Expected) :
    Except PyExn (Bool × Props) :=
  match parse with
  | .error e => .error e
  | .ok sheet_names =>
    let props : Props := [("sheets", .listV sheet_names), ("valid_format", .boolV true)]
    match expected.sheet with
    | some s => if !sheet_names.contains s then .ok (false, props) else .ok (true, props)
    | none => .ok (true, props)

/-- The handler clauses of verify_xlsx_output (lines 347-350). -/
def xlsx_handler : PyExn → Bool × Props
  | .importErr _ =>
    (false, [("error", .strV "openpyxl not installed (expected - neutral environment)")])
  | e => (false, [("error", .strV (exnMsg e)), ("valid_format", .boolV false)])

/-- verify_xlsx_output (execution_verifier.py lines 321-350). -/
def verify_xlsx_output (parse : Except PyExn (List String)) (expected : Expected) :
    Bool × Props :=
  pyTry (verify_xlsx_body parse expected) xlsx_handler

/-- The try body of verify_json_output (lines 364-375): missing expected
keys are only checked when the decoded content is a dict. -/
def verify_json_body (parse : Except PyExn PyVal) (expected : Expected) :
    Except PyExn (Bool × Props) :=
  match parse with
  | .error e => .error e
  | .ok content =>
    let props : Props := [("valid_json", .boolV true), ("type", .strV (pyTypeName content))]
    match expected.keys, content with
    | some ks, .dict keys =>
      let missing := ks.filter (fun k => !keys.contains k)
      if !missing.isEmpty then .ok (false, props ++ [("missing_keys", .listV missing)])
      else .ok (true, props)
    | _, _ => .ok (true, props)

/-- The handler clauses of verify_json_output (lines 377-380). -/
def json_handler : PyExn → Bool × Props
  | .jsonDecodeErr m => (false, [("error", .strV m), ("valid_json", .boolV false)])
  | e => (false, [("error", .strV (exnMsg e))])

/-- verify_json_output (execution_verifier.py lines 353-380). -/
def verify_json_output (parse : Except PyExn PyVal) (expected : Expected) :
    Bool × Props :=
  pyTry (verify_json_body parse expected) json_handler

/-- The try body of verify_yaml_output (lines 394-407). -/
def verify_yaml_body (parse : Except PyExn PyVal) (expected : Expected) :
    Except PyExn (Bool × Props) :=
  match parse with
  | .error e => .error e
  | .ok content =>
    let props : Props := [("valid_yaml", .boolV true), ("type", .strV (pyTypeName content))]
    match expected.keys, content with
    | some ks, .dict keys =>
      let missing := ks.filter (fun k => !keys.contains k)
      if !missing.isEmpty then .ok (false, props ++ [("missing_keys", .listV missing)])
      else .ok (true, props)
    | _, _ => .ok (true, props)

/-- The handler clauses of verify_yaml_output (lines 409-412). -/
def yaml_handler : PyExn → Bool × Props
  | .importErr _ => (false, [("error", .strV "pyyaml not installed")])
  | e => (false, [("error", .strV (exnMsg e)), ("valid_yaml", .boolV false)])

/-- verify_yaml_output (execution_verifier.py lines 383-412). -/
def verify_yaml_output (parse : Except PyExn PyVal) (expected : Expected) :
    Bool × Props :=
  pyTry (verify_yaml_body parse expected) yaml_handler

/-- The try body of verify_code_syntax for language "python"
(lines 426-432): ast.parse the content; on success report the line count
(the parse payload carries `code.count newline + 1`). -/
def verify_py_body (parse : Except PyExn ℕ) : Except PyExn (Bool × Props) :=
  match parse with
  | .error e => .error e
  | .ok lines => .ok (true, [("valid_syntax", .boolV true), ("lines", .intV lines)])

/-- The handler clauses of verify_code_syntax (lines 441-444). -/
def py_handler : PyExn → Bool × Props
  | .syntaxErr m => (false, [("valid_syntax", .boolV false), ("error", .strV m)])
  | e => (false, [("error", .strV (exnMsg e))])

/-- verify_code_syntax with language "python", as dispatched by
verify_output for ".py" files (execution_verifier.py lines 415-444). -/
def verify_py_output (parse : Except PyExn ℕ) : Bool × Props :=
  pyTry (verify_py_body parse) py_handler

/-- The per-file dispatch of verify_output (lines 476-492), selecting the
verifier by extension; other extensions get the non-empty byte check. -/
def verify_file (fd : FileData) (expected : Expected) : Bool × Props :=
  match fd with
  | .pdf p => verify_pdf_output p expected
  | .xlsx p => verify_xlsx_output p expected
  | .jsonF p => verify_json_output p expected
  | .yamlF p => verify_yaml_output p expected
  | .pyF p => verify_py_output p
  | .other size => (decide (size > 0), [("size_bytes", .intV size)])

/-- Dict update: `properties[filename] = value`. -/
def updateProps (props : String → Option Props) (k : String) (v : Props) :
    String → Option Props :=
  fun k2 => if k2 = k then some v else props k2

/-- The loop of verify_output (lines 463-498) over the expected files,
threading the all_valid flag and the properties dict.  The result lives in
`Except PyExn` so that an exception escaping a per-file verifier would
surface as an error; every per-file verifier is total because its try body
is wrapped by its handler. -/
def verify_output_go (fs : String → Option FileData)
    (eps : String → Expected) :
    List String → Bool → (String → Option Props) →
    Except PyExn (Bool × (String → Option Props))
  | [], all_valid, props => .ok (all_valid, props)
  | filename :: rest, all_valid, props =>
    match fs filename with
    | none =>
      verify_output_go fs eps rest false
        (updateProps props filename [("exists", .boolV false)])
    | some fd =>
      let r := verify_file fd (eps filename)
      verify_output_go fs eps rest (all_valid && r.1)
        (updateProps props filename (("exists", .boolV true) :: r.2))

/-- verify_output (execution_verifier.py lines 447-498): the working
directory is the map `fs` from filename to contents, expected_properties
the map `eps` (missing entries are the empty dict, i.e. the default
Expected). -/
def verify_output (fs : String → Option FileData)
    (expected_files : List String) (eps : String → Expected) :
    Except PyExn (Bool × (String → Option Props)) :=
  verify_output_go fs eps expected_files true (fun _ => none)

/-- The error message the handlers record for a file whose try body raised,
`none` when the file's parse succeeded (or for the generic branch, which
cannot raise on contents). -/
def file_error_report : FileData → Option String
  | .pdf (.error (.importErr _)) =>
    some "pypdf not installed (expected - neutral environment)"
  | .pdf (.error e) => some (exnMsg e)
  | .xlsx (.error (.importErr _)) =>
    some "openpyxl not installed (expected - neutral environment)"
  | .xlsx (.error e) => some (exnMsg e)
  | .jsonF (.error e) => some (exnMsg e)
  | .yamlF (.error (.importErr _)) => some "pyyaml not installed"
  | .yamlF (.error e) => some (exnMsg e)
  | .pyF (.error e) => some (exnMsg e)
  | _ => none

/-- ExecutionResult (execution_verifier.py lines 26-35). -/
structure ExecutionResult where
  executed : Bool
  exit_code : ℤ
  stdout : String
  stderr : String
  execution_time_ms : ℕ
  output_files : List String
  error : Option String

/-- verify_response (execution_verifier.py lines 501-583).  The sandbox
run is the collaborator `executor` (a total function: execute_in_docker and
execute_locally catch every exception of the run themselves, lines 136-182
and 227-274) and `fsAfter` is the working-directory contents after
execution.  Output validation only happens when the code executed with exit
code 0. -/
def verify_response (response skill_name prompt : String)
    (expected_files : List String) (eps : String → Expected)
    (executor : String → String → ExecutionResult)
    (fsAfter : String → Option FileData) :
    Except PyExn VerificationResult :=
  let extracted := extract_code response
  if !extracted.has_executable_code then
    .ok { skill_name := skill_name
          prompt := prompt
          code_extracted := false
          code_language := extracted.primary_language
          code_blocks_count := extracted.blocks.length
          executed := false
          execution_success := false
          execution_error := some "No executable code found"
          execution_time_ms := 0
          output_files_created := []
          output_valid := false
          output_properties := fun _ => none }
  else
    let exec_result := executor extracted.combined_code extracted.primary_language
    if exec_result.executed && decide (exec_result.exit_code = 0) then
      match verify_output fsAfter expected_files eps with
      | .error e => .error e
      | .ok r =>
        .ok { skill_name := skill_name
              prompt := prompt
              code_extracted := true
              code_language := extracted.primary_language
              code_blocks_count := extracted.blocks.length
              executed := exec_result.executed
              execution_success := decide (exec_result.exit_code = 0)
              execution_error := exec_result.error
              execution_time_ms := exec_result.execution_time_ms
              output_files_created := exec_result.output_files
              output_valid := r.1
              output_properties := r.2 }
    else
      .ok { skill_name := skill_name
            prompt := prompt
            code_extracted := true
            code_language := extracted.primary_language
            code_blocks_count := extracted.blocks.length
            executed := exec_result.executed
            execution_success := decide (exec_result.exit_code = 0)
            execution_error := exec_result.error
            execution_time_ms := exec_result.execution_time_ms
            output_files_created := exec_result.output_files
            output_valid := false
            output_properties := fun _ => none }

/-- A one-file working directory whose json file raises a decode error,
used to witness the error-reporting property. -/
def sample_fs : String → Option FileData :=
  fun n =>
    if n = "out.json" then
      some (.jsonF (.error (.jsonDecodeErr "Expecting value: line 1 column 1 (char 0)")))
    else none

/-! ## Helper lemmas -/

lemma severities_contains_iff (issues : List SecurityIssue) (s : String) :
    (issues.map (·.severity)).contains s = true ↔ ∃ i ∈ issues, i.severity = s := by
  simp [List.contains, List.elem_iff, List.mem_map]

lemma determine_grade_eq (issues : List SecurityIssue) :
    determine_grade issues =
      (if ∃ i ∈ issues, i.severity = "high" then SecurityGrade.fail
       else if ∃ i ∈ issues, i.severity = "medium" then SecurityGrade.warning
       else SecurityGrade.secure) := by
  rcases issues with _ | ⟨a, rest⟩
  · simp [determine_grade]
  · simp only [← severities_contains_iff]
    rfl

/-! ## Claim theorems -/

/-- C1: compare_verifications returns the verdict of the ordered tie-break
cascade evaluated top-to-bottom with first match winning: exactly one side
with valid output wins, both valid is a tie, else exactly one side that
executed successfully wins, else exactly one side with extracted code wins,
else tie. -/
theorem compare_verifications_cascade (baseline skill : VerificationResult) :
    (compare_verifications baseline skill).1 =
      cascade_spec baseline.output_valid skill.output_valid
        baseline.execution_success skill.execution_success
        baseline.code_extracted skill.code_extracted := by
  obtain ⟨_, _, bc, _, _, _, br, _, _, _, bv, _⟩ := baseline
  obtain ⟨_, _, sc, _, _, _, sr, _, _, _, sv, _⟩ := skill
  cases bv <;> cases sv <;> cases br <;> cases sr <;> cases bc <;> cases sc <;> rfl

/-- C4: score_combined (modelled from the spec, its body being absent from
src/) yields a combined score equal to the quality win rate alone whenever
no execution score is present, and carries the input security grade through
unchanged as a separate field for every input. -/
theorem score_combined_quality_alone_security_unchanged
    (q : ℚ) (e : Option ℚ) (sec : SecurityGrade) (wq we : ℚ) :
    (score_combined q none sec wq we).combined_score = q ∧
    (score_combined q e sec wq we).security_grade = sec ∧
    (score_combined q e sec wq we).quality_win_rate = q := by
  exact ⟨rfl, rfl, rfl⟩

/-- C5: determine_grade takes the maximum severity present: fail if any
issue has severity "high", else warning if any issue has severity "medium",
else secure; the empty issue list yields secure. -/
theorem determine_grade_max_severity (issues : List SecurityIssue) :
    determine_grade issues =
      (if ∃ i ∈ issues, i.severity = "high" then SecurityGrade.fail
       else if ∃ i ∈ issues, i.severity = "medium" then SecurityGrade.warning
       else SecurityGrade.secure) :=
  determine_grade_eq issues

/-- C10: determine_grade only reacts to the severity strings "high" and
"medium"; a list of issues (in particular a non-empty one) whose severities
are all other strings, such as "critical" or "severe", is graded secure. -/
theorem determine_grade_unrecognized_secure (issues : List SecurityIssue)
    (h : ∀ i ∈ issues, i.severity ≠ "high" ∧ i.severity ≠ "medium") :
    determine_grade issues = SecurityGrade.secure := by
  rw [determine_grade_eq]
  rw [if_neg, if_neg]
  · rintro ⟨i, hi, hs⟩
    exact (h i hi).2 hs
  · rintro ⟨i, hi, hs⟩
    exact (h i hi).1 hs

/-- Witness for C10 at a concrete non-empty issue list whose severities are
unrecognized strings. -/
theorem determine_grade_unrecognized_secure_witness :
    determine_grade
      [⟨"malicious_dependencies", "critical", "typosquatted package", "reqeusts"⟩,
       ⟨"code_injection", "severe", "dynamic import", "importlib"⟩] =
      SecurityGrade.secure :=
  determine_grade_unrecognized_secure _ (by decide)

lemma grade_rank_calculate (x : ℚ) :
    grade_rank (calculate_grade (some x)) =
      (if x ≥ 80 then 4 else if x ≥ 60 then 3 else if x ≥ 40 then 2
       else if x ≥ 20 then 1 else 0) := by
  simp only [calculate_grade]
  split_ifs <;> rfl

/-- C8: calculate_grade maps win rates to letter grades by the fixed
thresholds A at 80 and above, B at 60, C at 40, D at 20, F below, with a
missing (None) win rate mapping to F; the grade rank is monotonically
non-decreasing in the win rate. -/
theorem calculate_grade_thresholds_monotone :
    calculate_grade none = "F" ∧
    (∀ x : ℚ, 80 ≤ x → calculate_grade (some x) = "A") ∧
    (∀ x : ℚ, 60 ≤ x → x < 80 → calculate_grade (some x) = "B") ∧
    (∀ x : ℚ, 40 ≤ x → x < 60 → calculate_grade (some x) = "C") ∧
    (∀ x : ℚ, 20 ≤ x → x < 40 → calculate_grade (some x) = "D") ∧
    (∀ x : ℚ, x < 20 → calculate_grade (some x) = "F") ∧
    (∀ x y : ℚ, x ≤ y →
      grade_rank (calculate_grade (some x)) ≤ grade_rank (calculate_grade (some y))) := by
  refine ⟨rfl, ?_, ?_, ?_, ?_, ?_, ?_⟩
  · intro x h
    simp only [calculate_grade]
    rw [if_pos (by linarith)]
  · intro x h1 h2
    simp only [calculate_grade]
    rw [if_neg (by linarith), if_pos (by linarith)]
  · intro x h1 h2
    simp only [calculate_grade]
    rw [if_neg (by linarith), if_neg (by linarith), if_pos (by linarith)]
  · intro x h1 h2
    simp only [calculate_grade]
    rw [if_neg (by linarith), if_neg (by linarith), if_neg (by linarith),
      if_pos (by linarith)]
  · intro x h
    simp only [calculate_grade]
    rw [if_neg (by linarith), if_neg (by linarith), if_neg (by linarith),
      if_neg (by linarith)]
  · intro x y hxy
    rw [grade_rank_calculate, grade_rank_calculate]
    split_ifs <;> first | omega | linarith

/-- Witness for C8: the band facts and monotonicity at concrete win
rates. -/
theorem calculate_grade_thresholds_monotone_witness :
    calculate_grade (some 85) = "A" ∧ calculate_grade (some 66.67) = "B" ∧
    calculate_grade (some 50) = "C" ∧ calculate_grade (some 20) = "D" ∧
    calculate_grade (some 19.99) = "F" ∧
    grade_rank (calculate_grade (some 30)) ≤ grade_rank (calculate_grade (some 70)) :=
  ⟨calculate_grade_thresholds_monotone.2.1 85 (by norm_num),
   calculate_grade_thresholds_monotone.2.2.1 66.67 (by norm_num) (by norm_num),
   calculate_grade_thresholds_monotone.2.2.2.1 50 (by norm_num) (by norm_num),
   calculate_grade_thresholds_monotone.2.2.2.2.1 20 (by norm_num) (by norm_num),
   calculate_grade_thresholds_monotone.2.2.2.2.2.1 19.99 (by norm_num),
   calculate_grade_thresholds_monotone.2.2.2.2.2.2 30 70 (by norm_num)⟩

lemma win_rate_counts (comparisons : List ComparisonResult) (a b c : ℕ) :
    comparisons.foldl
      (fun acc cr =>
        match cr.verdict with
        | .skillWins => (acc.1 + 1, acc.2.1, acc.2.2)
        | .baselineWins => (acc.1, acc.2.1 + 1, acc.2.2)
        | .tie => (acc.1, acc.2.1, acc.2.2 + 1))
      (a, b, c) =
      (a + comparisons.countP (fun cr => cr.verdict == Verdict.skillWins),
       b + comparisons.countP (fun cr => cr.verdict == Verdict.baselineWins),
       c + comparisons.countP (fun cr => cr.verdict == Verdict.tie)) := by
  induction comparisons generalizing a b c with
  | nil => simp
  | cons hd tl ih =>
    rcases hv : hd.verdict <;>
      simp [List.foldl_cons, hv, ih, List.countP_cons] <;> omega

lemma calculate_win_rate_ok (comparisons : List ComparisonResult)
    (h : comparisons ≠ []) :
    calculate_win_rate comparisons =
      .ok (comparisons.countP (fun cr => cr.verdict == Verdict.skillWins),
           comparisons.countP (fun cr => cr.verdict == Verdict.baselineWins),
           comparisons.countP (fun cr => cr.verdict == Verdict.tie),
           if comparisons.countP (fun cr => cr.verdict == Verdict.skillWins) +
              comparisons.countP (fun cr => cr.verdict == Verdict.baselineWins) = 0
           then none
           else some (pyRound2
             ((comparisons.countP (fun cr => cr.verdict == Verdict.skillWins) : ℚ) /
              ((comparisons.countP (fun cr => cr.verdict == Verdict.skillWins) +
                comparisons.countP (fun cr => cr.verdict == Verdict.baselineWins) : ℕ) : ℚ) *
              100))) := by
  have hne : comparisons.isEmpty = false := by
    rcases comparisons with _ | _
    · exact absurd rfl h
    · rfl
  unfold calculate_win_rate
  rw [hne]
  simp only [Bool.false_eq_true, if_false, win_rate_counts, Nat.zero_add]
  split_ifs <;> rfl

/-- C2: for every non-empty comparison list, calculate_win_rate counts
SKILL_WINS as wins and BASELINE_WINS as losses, returns a None win rate iff
wins plus losses is zero, and otherwise returns round(100*wins/(wins+losses), 2);
the empty list raises ScorerError. -/
theorem calculate_win_rate_spec :
    (∀ comparisons : List ComparisonResult, comparisons ≠ [] →
      ∃ w l t r, calculate_win_rate comparisons = .ok (w, l, t, r) ∧
        w = comparisons.countP (fun cr => cr.verdict == Verdict.skillWins) ∧
        l = comparisons.countP (fun cr => cr.verdict == Verdict.baselineWins) ∧
        t = comparisons.countP (fun cr => cr.verdict == Verdict.tie) ∧
        (r = none ↔ w + l = 0) ∧
        (w + l ≠ 0 → r = some (pyRound2 (100 * (w : ℚ) / ((w : ℚ) + (l : ℚ)))))) ∧
    calculate_win_rate [] = .error "No comparisons provided - cannot calculate win rate" := by
  constructor
  · intro comparisons h
    refine ⟨_, _, _, _, calculate_win_rate_ok comparisons h, rfl, rfl, rfl, ?_, ?_⟩
    · constructor
      · intro hr
        by_contra hne
        rw [if_neg hne] at hr
        simp at hr
      · intro hz
        rw [if_pos hz]
    · intro hne
      rw [if_neg hne]
      congr 1
      have hpos : ((comparisons.countP (fun cr => cr.verdict == Verdict.skillWins) +
          comparisons.countP (fun cr => cr.verdict == Verdict.baselineWins) : ℕ) : ℚ) ≠ 0 := by
        exact_mod_cast hne
      push_cast
      field_simp
      ring_nf
  · rfl

/-- Witness for C2 at a concrete one-element comparison list. -/
theorem calculate_win_rate_spec_witness :
    ([⟨Verdict.skillWins, 100, 150⟩] : List ComparisonResult) ≠ [] ∧
    (∃ w l t r,
      calculate_win_rate [⟨Verdict.skillWins, 100, 150⟩] = .ok (w, l, t, r) ∧
        w = ([⟨Verdict.skillWins, 100, 150⟩] : List ComparisonResult).countP
              (fun cr => cr.verdict == Verdict.skillWins) ∧
        l = ([⟨Verdict.skillWins, 100, 150⟩] : List ComparisonResult).countP
              (fun cr => cr.verdict == Verdict.baselineWins) ∧
        t = ([⟨Verdict.skillWins, 100, 150⟩] : List ComparisonResult).countP
              (fun cr => cr.verdict == Verdict.tie) ∧
        (r = none ↔ w + l = 0) ∧
        (w + l ≠ 0 → r = some (pyRound2 (100 * (w : ℚ) / ((w : ℚ) + (l : ℚ)))))) :=
  ⟨by simp, calculate_win_rate_spec.1 [⟨Verdict.skillWins, 100, 150⟩] (by simp)⟩

/-- C7: Scorer.score never produces a SkillScore at all.  The empty list
raises ScorerError, and for every non-empty list the SkillScore constructor
call raises a pydantic ValidationError, because models.py declares
`avg_baseline_tokens` and `baseline_cost_usd` as required fields (no
default) and scorer.py lines 208-221 do not pass them.  The claimed
invariant wins + losses + ties == total_comparisons does hold of the counts
computed by calculate_win_rate (see the helper `calculate_win_rate_ok` and
`counts_partition_length` below), but no SkillScore carrying them is ever
returned. -/
theorem Scorer_score_always_raises (skill_name : String)
    (comparisons : List ComparisonResult) (security_result : SecurityResult) :
    (Scorer_score skill_name comparisons security_result).isOk = false := by
  rcases comparisons with _ | ⟨c, rest⟩
  · rfl
  · unfold Scorer_score
    rw [show (c :: rest).isEmpty = false from rfl]
    simp only [Bool.false_eq_true, if_false]
    rw [calculate_win_rate_ok (c :: rest) (List.cons_ne_nil c rest)]
    rfl

lemma counts_partition_length (comparisons : List ComparisonResult) :
    comparisons.countP (fun cr => cr.verdict == Verdict.skillWins) +
    comparisons.countP (fun cr => cr.verdict == Verdict.baselineWins) +
    comparisons.countP (fun cr => cr.verdict == Verdict.tie) =
      comparisons.length := by
  induction comparisons with
  | nil => rfl
  | cons hd tl ih =>
    rcases hv : hd.verdict <;> simp [List.countP_cons, hv] <;> omega

/-- C3 counterexample: the judge verdict value "C" is not one of A, B, TIE,
yet parse_judge_response returns it without error, and judge_comparison's
mapping silently coerces it to a win for whichever side sits in position B
(baseline when position A holds the skill, skill otherwise). -/
theorem judge_unrecognized_verdict_coerced :
    (["A", "B", "TIE"] : List String).contains "C" = false ∧
    parse_judge_response (.ok ⟨some "C", some "judged"⟩) = .ok ("C", "judged") ∧
    map_judge_verdict "C" "skill" = Verdict.baselineWins ∧
    map_judge_verdict "C" "baseline" = Verdict.skillWins := by
  refine ⟨by decide, rfl, by decide, by decide⟩

/-- C3 amended: unparseable JSON and a missing verdict field are surfaced
as JudgeParseError and the verdict is never defaulted to tie (a tie verdict
can only arise from the raw value "TIE"); however a present verdict value
outside A, B, TIE is not validated: parse_judge_response returns it
uppercased, and the mapping treats every raw verdict other than "TIE" and
"A" as a win for position B. -/
theorem parse_judge_response_amended :
    (∀ e, ∃ msg, parse_judge_response (.error e) = .error msg) ∧
    (∀ data : JudgeJson, data.verdict = none →
      parse_judge_response (.ok data) =
        .error "JudgeParseError: Response missing verdict field") ∧
    (∀ (data : JudgeJson) (v : String), data.verdict = some v →
      parse_judge_response (.ok data) = .ok (pyUpper v, data.reasoning.getD "")) ∧
    (∀ raw pos, map_judge_verdict raw pos = Verdict.tie → raw = "TIE") ∧
    (∀ raw pos, raw ≠ "TIE" → raw ≠ "A" →
      map_judge_verdict raw pos =
        (if pos = "skill" then Verdict.baselineWins else Verdict.skillWins)) := by
  refine ⟨fun e => ⟨_, rfl⟩, ?_, ?_, ?_, ?_⟩
  · rintro ⟨v, r⟩ hv
    cases hv
    rfl
  · rintro ⟨v, r⟩ w hv
    cases hv
    rfl
  · intro raw pos h
    unfold map_judge_verdict at h
    split_ifs at h
    assumption
  · intro raw pos h1 h2
    unfold map_judge_verdict
    rw [if_neg h1, if_neg h2]

/-- Witness for the amended C3 at concrete judge outcomes. -/
theorem parse_judge_response_amended_witness :
    (∃ msg, parse_judge_response
      (.error "Expecting value: line 1 column 1 (char 0)") = .error msg) ∧
    parse_judge_response (.ok ⟨none, some "no verdict here"⟩) =
      .error "JudgeParseError: Response missing verdict field" ∧
    parse_judge_response (.ok ⟨some "b", some "judged B"⟩) = .ok ("B", "judged B") ∧
    "TIE" = "TIE" ∧
    map_judge_verdict "UNKNOWN" "baseline" =
      (if ("baseline" : String) = "skill" then Verdict.baselineWins
       else Verdict.skillWins) :=
  ⟨parse_judge_response_amended.1 "Expecting value: line 1 column 1 (char 0)",
   parse_judge_response_amended.2.1 ⟨none, some "no verdict here"⟩ rfl,
   parse_judge_response_amended.2.2.1 ⟨some "b", some "judged B"⟩ "b" rfl,
   parse_judge_response_amended.2.2.2.1 "TIE" "skill" rfl,
   parse_judge_response_amended.2.2.2.2 "UNKNOWN" "baseline" (by decide) (by decide)⟩

lemma findClose_length (l : List Char) :
    ∀ code after, findClose l = some (code, after) → after.length < l.length := by
  induction l with
  | nil => intro code after h; simp [findClose] at h
  | cons c rest ih =>
    intro code after h
    simp only [findClose] at h
    split at h
    · simp only [Option.some.injEq, Prod.mk.injEq] at h
      obtain ⟨-, rfl⟩ := h
      simp only [List.length_drop, List.length_cons]
      omega
    · cases hrec : findClose rest with
      | none => rw [hrec] at h; cases h
      | some p =>
        obtain ⟨code', after'⟩ := p
        rw [hrec] at h
        simp only [Option.some.injEq, Prod.mk.injEq] at h
        obtain ⟨-, rfl⟩ := h
        have := ih code' after' hrec
        simp only [List.length_cons]
        omega

lemma length_dropWhile_le_self (p : Char → Bool) (l : List Char) :
    (l.dropWhile p).length ≤ l.length := by
  induction l with
  | nil => simp [List.dropWhile]
  | cons c rest ih =>
    simp only [List.dropWhile]
    cases p c
    · simp
    · simpa using Nat.le_succ_of_le ih

lemma afterTag_length (tag l : List Char) (tagS : String) (code after : List Char)
    (h : afterTag tag l = some (tagS, code, after)) : after.length < l.length := by
  rcases l with _ | ⟨c, body⟩
  · simp [afterTag] at h
  · simp only [afterTag] at h
    split at h
    · cases hfc : findClose body with
      | none => rw [hfc] at h; cases h
      | some p =>
        obtain ⟨co, af⟩ := p
        rw [hfc] at h
        simp only [Option.some.injEq, Prod.mk.injEq] at h
        obtain ⟨-, -, rfl⟩ := h
        have h1 := findClose_length body co af hfc
        simp only [List.length_cons]
        omega
    · cases h

lemma matchFence_length (cs : List Char) (tag : String) (code after : List Char)
    (h : matchFence cs = some (tag, code, after)) : after.length < cs.length := by
  rcases cs with _ | ⟨c1, _ | ⟨c2, _ | ⟨c3, rest⟩⟩⟩
  · simp [matchFence] at h
  · simp [matchFence] at h
  · simp [matchFence] at h
  · simp only [matchFence] at h
    split at h
    · have h1 := afterTag_length _ _ _ _ _ h
      have h2 : (rest.dropWhile isWordChar).length ≤ rest.length :=
        length_dropWhile_le_self isWordChar rest
      simp only [List.length_cons]
      omega
    · cases h

lemma scanFencesAux_fuel (fuel1 : ℕ) :
    ∀ (fuel2 nl : ℕ) (cs : List Char), cs.length < fuel1 → cs.length < fuel2 →
      scanFencesAux fuel1 nl cs = scanFencesAux fuel2 nl cs := by
  induction fuel1 with
  | zero => intro fuel2 nl cs h1 h2; omega
  | succ f1 ih =>
    intro fuel2 nl cs h1 h2
    rcases fuel2 with _ | f2
    · omega
    · rcases cs with _ | ⟨c, rest⟩
      · simp [scanFencesAux]
      · simp only [scanFencesAux]
        cases hm : matchFence (c :: rest) with
        | some p =>
          obtain ⟨tag, code, after⟩ := p
          have hlt := matchFence_length (c :: rest) tag code after hm
          simp only [List.length_cons] at hlt h1 h2
          exact congrArg (List.cons (nl, tag, code))
            (ih f2 (nl + 1 + code.count '\n') after (by omega) (by omega))
        | none =>
          simp only [List.length_cons] at h1 h2
          exact ih f2 (if c = '\n' then nl + 1 else nl) rest (by omega) (by omega)

/-- C9: extract_code reports executable code exactly when the detected
primary language is one of the executable languages and the combined code
of that language is non-blank; in particular, a response whose only fenced
block is tagged json extracts one block but has has_executable_code false. -/
theorem extract_code_executable_iff :
    (∀ response : String,
      (extract_code response).has_executable_code =
        (EXECUTABLE_LANGUAGES.contains (extract_code response).primary_language &&
         !(pyStrip (combine_code_blocks (extract_code_blocks response)
             (extract_code response).primary_language)).isEmpty)) ∧
    (extract_code jsonOnlyResponse).has_executable_code = false ∧
    (extract_code jsonOnlyResponse).blocks.length = 1 ∧
    (extract_code jsonOnlyResponse).primary_language = "json" := by
  refine ⟨fun response => rfl, by decide, by decide, by decide⟩

lemma verify_output_go_ok (fs : String → Option FileData) (eps : String → Expected) :
    ∀ (efs : List String) (av : Bool) (props : String → Option Props),
      ∃ r, verify_output_go fs eps efs av props = .ok r := by
  intro efs
  induction efs with
  | nil => intro av props; exact ⟨(av, props), rfl⟩
  | cons f rest ih =>
    intro av props
    simp only [verify_output_go]
    cases hf : fs f with
    | none => exact ih false (updateProps props f [("exists", .boolV false)])
    | some fd =>
      exact ih (av && (verify_file fd (eps f)).1)
        (updateProps props f (("exists", .boolV true) :: (verify_file fd (eps f)).2))

lemma verify_output_ok (fs : String → Option FileData) (efs : List String)
    (eps : String → Expected) : ∃ r, verify_output fs efs eps = .ok r :=
  verify_output_go_ok fs eps efs true (fun _ => none)

lemma isOk_ite {α : Type} (c : Prop) [Decidable c] (a b : Except PyExn α)
    (ha : a.isOk = true) (hb : b.isOk = true) : (ite c a b).isOk = true := by
  split <;> assumption

lemma verify_file_reports (fd : FileData) (expected : Expected) (m : String)
    (h : file_error_report fd = some m) :
    ("error", PropVal.strV m) ∈ (verify_file fd expected).2 := by
  rcases fd with p | p | p | p | p | size
  · rcases p with e | v
    · rcases e with msg | msg | msg | msg <;>
        simp_all [file_error_report, verify_file, verify_pdf_output, pyTry,
          verify_pdf_body, pdf_handler, exnMsg]
    · simp [file_error_report] at h
  · rcases p with e | v
    · rcases e with msg | msg | msg | msg <;>
        simp_all [file_error_report, verify_file, verify_xlsx_output, pyTry,
          verify_xlsx_body, xlsx_handler, exnMsg]
    · simp [file_error_report] at h
  · rcases p with e | v
    · rcases e with msg | msg | msg | msg <;>
        simp_all [file_error_report, verify_file, verify_json_output, pyTry,
          verify_json_body, json_handler, exnMsg]
    · simp [file_error_report] at h
  · rcases p with e | v
    · rcases e with msg | msg | msg | msg <;>
        simp_all [file_error_report, verify_file, verify_yaml_output, pyTry,
          verify_yaml_body, yaml_handler, exnMsg]
    · simp [file_error_report] at h
  · rcases p with e | v
    · rcases e with msg | msg | msg | msg <;>
        simp_all [file_error_report, verify_file, verify_py_output, pyTry,
          verify_py_body, py_handler, exnMsg]
    · simp [file_error_report] at h
  · simp [file_error_report] at h

lemma verify_output_go_lookup (fs : String → Option FileData)
    (eps : String → Expected) (fname : String) (fd : FileData)
    (hfd : fs fname = some fd) :
    ∀ (efs : List String) (av : Bool) (props : String → Option Props) r,
      (props fname = some (("exists", PropVal.boolV true) :: (verify_file fd (eps fname)).2) ∨
        fname ∈ efs) →
      verify_output_go fs eps efs av props = .ok r →
      r.2 fname = some (("exists", PropVal.boolV true) :: (verify_file fd (eps fname)).2) := by
  intro efs
  induction efs with
  | nil =>
    intro av props r hmem hrun
    rcases hmem with hp | hmem
    · simp only [verify_output_go, Except.ok.injEq] at hrun
      rw [← hrun]
      exact hp
    · simp at hmem
  | cons f rest ih =>
    intro av props r hmem hrun
    simp only [verify_output_go] at hrun
    by_cases hEq : fname = f
    · subst hEq
      rw [hfd] at hrun
      refine ih _ _ r (Or.inl ?_) hrun
      simp [updateProps]
    · cases hf : fs f with
      | none =>
        rw [hf] at hrun
        refine ih _ _ r ?_ hrun
        rcases hmem with hp | hmem
        · exact Or.inl (by simpa [updateProps, hEq] using hp)
        · exact Or.inr (by simpa [hEq] using hmem)
      | some fd2 =>
        rw [hf] at hrun
        refine ih _ _ r ?_ hrun
        rcases hmem with hp | hmem
        · exact Or.inl (by simpa [updateProps, hEq] using hp)
        · exact Or.inr (by simpa [hEq] using hmem)

/-- C6: output validation never raises: verify_output always returns a
result for every working directory and expectation map, and a file whose
parsing or validation raised an exception gets an explicit error entry in
that file's properties; verify_response, the public boundary, likewise
always returns a result. -/
theorem verify_output_never_raises :
    (∀ (fs : String → Option FileData) (efs : List String) (eps : String → Expected),
      (verify_output fs efs eps).isOk = true) ∧
    (∀ (fs : String → Option FileData) (efs : List String) (eps : String → Expected)
       (fname : String) (fd : FileData) (m : String)
       (r : Bool × (String → Option Props)),
      verify_output fs efs eps = .ok r →
      fname ∈ efs → fs fname = some fd → file_error_report fd = some m →
      ∃ fprops, r.2 fname = some fprops ∧ ("error", PropVal.strV m) ∈ fprops) ∧
    (∀ (response skill_name prompt : String) (efs : List String)
       (eps : String → Expected) (executor : String → String → ExecutionResult)
       (fsAfter : String → Option FileData),
      (verify_response response skill_name prompt efs eps executor fsAfter).isOk = true) := by
  refine ⟨?_, ?_, ?_⟩
  · intro fs efs eps
    obtain ⟨r, hr⟩ := verify_output_ok fs efs eps
    rw [hr]
    rfl
  · intro fs efs eps fname fd m r hrun hmem hfd hrep
    refine ⟨("exists", PropVal.boolV true) :: (verify_file fd (eps fname)).2, ?_, ?_⟩
    · exact verify_output_go_lookup fs eps fname fd hfd efs true (fun _ => none) r
        (Or.inr hmem) hrun
    · exact List.mem_cons_of_mem _ (verify_file_reports fd (eps fname) m hrep)
  · intro response skill_name prompt efs eps executor fsAfter
    obtain ⟨r, hr⟩ := verify_output_ok fsAfter efs eps
    refine isOk_ite _ _ _ rfl (isOk_ite _ _ _ ?_ rfl)
    rw [hr]
    rfl

/-- Witness for C6: a working directory whose only expected file is a json
file that raises a decode error; the verification returns a result whose
properties for that file carry the error entry. -/
theorem verify_output_never_raises_witness :
    ∃ (fprops : Props) (r : Bool × (String → Option Props)),
      verify_output sample_fs ["out.json"] (fun _ => {}) = .ok r ∧
      r.2 "out.json" = some fprops ∧
      ("error", PropVal.strV "Expecting value: line 1 column 1 (char 0)") ∈ fprops := by
  obtain ⟨r, hr⟩ := verify_output_ok sample_fs ["out.json"] (fun _ => {})
  obtain ⟨fprops, h1, h2⟩ :=
    verify_output_never_raises.2.1 sample_fs ["out.json"] (fun _ => {}) "out.json"
      (.jsonF (.error (.jsonDecodeErr "Expecting value: line 1 column 1 (char 0)")))
      "Expecting value: line 1 column 1 (char 0)" r hr (by simp) rfl rfl
  exact ⟨fprops, r, hr, h1, h2⟩

end KalybrateX
